import Mathlib

/-!
Shallow embedding of `src/fable-library-py/fable_library/task.py`, the
.NET-style Task adapter over Python asyncio, together with theorems settling
the specification claims about it.

Modelling choices (each definition cites the source construct it embeds):

* An asyncio `Future` is a four-state cell (`FutureState`): pending,
  completed with a value, faulted with an exception, or cancelled.
  `Future.set_result` / `Future.set_exception` raise `InvalidStateError`
  unless the cell is pending; `Future.cancel` flips a pending cell to
  cancelled and is a silent no-op (returns False) on a done cell.
* `loop.call_soon_threadsafe(action)` is modelled as appending the action to
  a FIFO queue owned by the loop; it raises RuntimeError only when the loop
  is closed.  The loop later drains the queue on its own thread; an
  exception raised inside a drained callback is delivered to the loop's
  exception handler (collected in a list), never to the enqueuing caller.
* A Python coroutine object (result of calling an `async def`) carries an
  allocation identity (a heap counter threaded through the constructors), a
  single-use flag, and the outcome it produces when driven.  Awaiting a
  consumed coroutine raises RuntimeError.
* `asyncio.run` raises RuntimeError when a loop is already running in the
  calling thread; otherwise it drives the coroutine and returns its value or
  re-raises its failure.
* `asyncio.create_task` appends the wrapped awaitable to the running loop's
  task list; a task that raises surfaces only on the loop's
  unhandled-failure channel.
* `asyncio.get_event_loop` returns the running loop if any, else the loop
  set for the current thread, else (main thread only) implicitly creates
  and installs a fresh loop; on a non-main thread with no loop it raises
  RuntimeError.
-/

namespace FableTask

/-- Python exception values that appear in this module: asyncio's
`InvalidStateError`, `RuntimeError` with a message, asyncio's
`CancelledError`, and arbitrary user exceptions identified by a tag. -/
inductive Exn : Type
  | invalidState
  | runtimeError (msg : String)
  | cancelledError
  | user (tag : Nat)
  deriving DecidableEq, Repr

/-- State of an asyncio `Future` cell: `loop.create_future()` starts it
pending; it can terminally become completed with a value, faulted with an
exception, or cancelled. -/
inductive FutureState (α : Type) : Type
  | pending
  | completed (v : α)
  | faulted (e : Exn)
  | cancelled
  deriving DecidableEq, Repr

/-- Observable outcome of awaiting a driven awaitable: a returned value, a
raised exception (the faulted path), or a raised `CancelledError`
(the cancellation path, a distinct constructor). -/
inductive Outcome (α : Type) : Type
  | value (v : α)
  | error (e : Exn)
  | cancelled
  deriving DecidableEq, Repr

/-- Closure enqueued by the three terminal-transition methods of
`TaskCompletionSource` via `loop.call_soon_threadsafe`: the `action`
inner functions of `SetResult`, `SetCancelled` and `SetException`. -/
inductive Action (α : Type) : Type
  | setResult (v : α)
  | cancel
  | setException (e : Exn)
  deriving DecidableEq, Repr

/-- A `TaskCompletionSource` together with the owning loop's state that the
class touches: the `future` cell created in `__init__`, the loop's
`call_soon_threadsafe` FIFO queue restricted to this source's actions, and
whether the owning loop has been closed. -/
structure TCS (α : Type) : Type where
  future : FutureState α
  queue : List (Action α)
  loopClosed : Bool
  deriving DecidableEq, Repr

/-- Semantics of executing one enqueued action against the future cell, per
asyncio: `Future.set_result` / `Future.set_exception` mutate a pending cell
and raise `InvalidStateError` on a done cell; `Future.cancel` cancels a
pending cell and silently returns False on a done cell.  The second
component is the exception the callback raises, if any, which the loop
routes to its exception handler. -/
def runAction (f : FutureState α) : Action α → FutureState α × Option Exn
  | .setResult v =>
      match f with
      | .pending => (.completed v, none)
      | f => (f, some .invalidState)
  | .setException e =>
      match f with
      | .pending => (.faulted e, none)
      | f => (f, some .invalidState)
  | .cancel =>
      match f with
      | .pending => (.cancelled, none)
      | f => (f, none)

/-- Auxiliary fold for `drain`: execute queued actions in FIFO order,
accumulating the exceptions reported to the loop's exception handler. -/
def drainFrom (f : FutureState α) : List (Action α) → List Exn → FutureState α × List Exn
  | [], errs => (f, errs)
  | a :: rest, errs =>
      match runAction f a with
      | (f1, none) => drainFrom f1 rest errs
      | (f1, some e) => drainFrom f1 rest (errs ++ [e])

/-- The owning loop taking its turn: it drains the thread-safe callback
queue in FIFO order, returning the resulting future state and the list of
callback exceptions delivered to the loop's exception handler (asyncio logs
them and keeps running; nothing propagates to the enqueuing thread). -/
def drain (t : TCS α) : FutureState α × List Exn :=
  drainFrom t.future t.queue []

/-- Embedding of `loop.call_soon_threadsafe(action)` as called by the three
terminal-transition methods: on an open loop it appends the action to the
loop's queue and returns None to the caller; on a closed loop it raises
RuntimeError. -/
def call_soon_threadsafe (t : TCS α) (a : Action α) : Except Exn (TCS α) :=
  if t.loopClosed then .error (.runtimeError "Event loop is closed")
  else .ok { t with queue := t.queue ++ [a] }

/-- Embedding of `TaskCompletionSource.SetResult`: enqueue, via the loop's
thread-safe hand-off, an action that will call `future.set_result(value)`. -/
def SetResult (t : TCS α) (v : α) : Except Exn (TCS α) :=
  call_soon_threadsafe t (.setResult v)

/-- Embedding of `TaskCompletionSource.SetCancelled`: enqueue, via the
loop's thread-safe hand-off, an action that will call `future.cancel()`. -/
def SetCancelled (t : TCS α) : Except Exn (TCS α) :=
  call_soon_threadsafe t .cancel

/-- Embedding of `TaskCompletionSource.SetException`: enqueue, via the
loop's thread-safe hand-off, an action that will call
`future.set_exception(exception)`. -/
def SetException (t : TCS α) (e : Exn) : Except Exn (TCS α) :=
  call_soon_threadsafe t (.setException e)

/-- Embedding of `TaskCompletionSource.get_task`, which returns
`asyncio.ensure_future(self.future)`; `ensure_future` applied to a Future
returns that same Future object, so every call hands back the one
underlying future cell. -/
def get_task (t : TCS α) : FutureState α :=
  t.future

/-- Awaiting the handle returned by `get_task`: a pending future suspends
the observer (`none`); a done future delivers its terminal outcome, and may
be awaited any number of times without being consumed. -/
def awaitDone : FutureState α → Option (Outcome α)
  | .pending => none
  | .completed v => some (.value v)
  | .faulted e => some (.error e)
  | .cancelled => some .cancelled

/-- A Python coroutine object, as produced by calling one of the module's
`async def` functions: `id` is its allocation identity (fresh per call),
`body` the outcome it yields when driven to completion, and `consumed`
whether it has already been awaited (coroutines are single-use). -/
structure Coroutine (α : Type) : Type where
  id : Nat
  body : Outcome α
  consumed : Bool
  deriving DecidableEq, Repr

/-- Awaiting a coroutine object: a fresh one is driven, yields its body's
outcome and becomes consumed; awaiting an already-consumed coroutine raises
RuntimeError ("cannot reuse already awaited coroutine"). -/
def awaitCoroutine (c : Coroutine α) : Outcome α × Coroutine α :=
  if c.consumed then
    (.error (.runtimeError "cannot reuse already awaited coroutine"), c)
  else
    (c.body, { c with consumed := true })

/-- Embedding of `zero()`: each call to the `async def` allocates a fresh
coroutine object that resolves immediately with no value.  The `Nat`
argument and second component thread the allocation counter. -/
def zero (h : Nat) : Coroutine Unit × Nat :=
  ({ id := h, body := .value (), consumed := false }, h + 1)

/-- Embedding of `from_result(value)`: each call to the `async def`
allocates a fresh coroutine object that resolves immediately with `value`. -/
def from_result (v : α) (h : Nat) : Coroutine α × Nat :=
  ({ id := h, body := .value v, consumed := false }, h + 1)

/-- Embedding of `get_awaiter(value)`: returns `get_value()`, a freshly
allocated coroutine that awaits `asyncio.ensure_future(value)` and forwards
its outcome; the inner awaitable is represented by the outcome it will
produce when driven. -/
def get_awaiter (a : Outcome α) (h : Nat) : Coroutine α × Nat :=
  ({ id := h, body := a, consumed := false }, h + 1)

/-- Raising the outcome of a driven awaitable to its synchronous caller:
a value is returned, a faulted outcome re-raises its exception, and a
cancelled outcome raises `CancelledError`. -/
def outcomeToExcept : Outcome α → Except Exn α
  | .value v => .ok v
  | .error e => .error e
  | .cancelled => .error .cancelledError

/-- Embedding of `asyncio.run(coro)`: if a loop is already running in the
calling thread it raises RuntimeError immediately; otherwise it creates a
fresh one-shot loop, drives the coroutine to completion, tears the loop
down, and returns the value or re-raises the failure. -/
def asyncio_run (running : Bool) (c : Coroutine α) : Except Exn α :=
  if running then
    .error (.runtimeError "asyncio.run() cannot be called from a running event loop")
  else
    outcomeToExcept (awaitCoroutine c).1

/-- Embedding of `get_result(value)`: wraps `value` in a fresh `runner`
coroutine that awaits it, and hands the runner to `asyncio.run`.  The
`running` flag records whether a loop is already driving the calling
thread, and `h` is the allocation counter for the runner coroutine. -/
def get_result (running : Bool) (value : Coroutine α) (h : Nat) : Except Exn α :=
  asyncio_run running { id := h, body := (awaitCoroutine value).1, consumed := false }

/-- Embedding of `run_synchronously(task)`: identical to `get_result`
except that the resolved value is discarded and None is returned; failures
still re-raise to the caller. -/
def run_synchronously (running : Bool) (task : Coroutine α) (h : Nat) : Except Exn Unit :=
  match asyncio_run running { id := h, body := (awaitCoroutine task).1, consumed := false } with
  | .ok _ => .ok ()
  | .error e => .error e

/-- The state of the currently running event loop that `start` schedules
onto: whether it is running, the FIFO list of scheduled background tasks
(each represented by the outcome it produces when driven), and the loop's
unhandled-failure channel (asyncio's exception-handler reports for task
exceptions that were never retrieved). -/
structure BgLoop (α : Type) : Type where
  running : Bool
  tasks : List (Outcome α)
  unhandled : List Exn
  deriving DecidableEq, Repr

/-- Embedding of `start(task)`: wraps `task` in a `runner` coroutine and
calls `asyncio.create_task(runner())`, which appends it to the running
loop's task list and returns at once; with no running loop `create_task`
raises RuntimeError. -/
def start (l : BgLoop α) (task : Coroutine α) : Except Exn (BgLoop α) :=
  if l.running then .ok { l with tasks := l.tasks ++ [(awaitCoroutine task).1] }
  else .error (.runtimeError "no running event loop")

/-- The loop driving its next scheduled task to completion: a task that
returns or is cancelled just leaves the queue; a task that raises has its
exception reported on the loop's unhandled-failure channel.  The loop keeps
running in every case. -/
def runNextTask (l : BgLoop α) : BgLoop α :=
  match l.tasks with
  | [] => l
  | o :: rest =>
      match o with
      | .error e => { l with tasks := rest, unhandled := l.unhandled ++ [e] }
      | _ => { l with tasks := rest }

/-- Thread-local asyncio context consulted by `asyncio.get_event_loop`:
the loop currently running in this thread (if any), the loop installed for
this thread by `set_event_loop` (if any), and whether this thread is the
main thread.  Loops are identified by a `Nat`. -/
structure ThreadCtx : Type where
  runningLoop : Option Nat
  currentLoop : Option Nat
  isMainThread : Bool
  deriving DecidableEq, Repr

/-- Embedding of `asyncio.get_event_loop()`: returns the running loop if
one exists, else the thread's installed loop; with neither, on the main
thread it implicitly creates a fresh loop (identified by `fresh`) and
installs it, while on any other thread it raises RuntimeError. -/
def get_event_loop (ctx : ThreadCtx) (fresh : Nat) : Except Exn (Nat × ThreadCtx) :=
  match ctx.runningLoop with
  | some l => .ok (l, ctx)
  | none =>
      match ctx.currentLoop with
      | some l => .ok (l, ctx)
      | none =>
          if ctx.isMainThread then
            .ok (fresh, { ctx with currentLoop := some fresh })
          else
            .error (.runtimeError "There is no current event loop in thread")

/-- Embedding of `TaskCompletionSource.__init__`: look up the ambient loop
with `asyncio.get_event_loop()` and create a pending future on it.  Returns
the bound loop's identity, the fresh source, and the updated thread
context; any lookup failure propagates to the constructor's caller. -/
def TCS_init (α : Type) (ctx : ThreadCtx) (fresh : Nat) :
    Except Exn ((Nat × TCS α) × ThreadCtx) :=
  match get_event_loop ctx fresh with
  | .error e => .error e
  | .ok (l, ctx1) => .ok ((l, { future := .pending, queue := [], loopClosed := false }), ctx1)

/-- The `TaskCompletionSource` as seen after the owning loop has taken its
turn and drained the thread-safe callback queue: the future holds the
drained state and the queue is empty. -/
def afterDrain (t : TCS α) : TCS α :=
  { future := (drain t).1, queue := [], loopClosed := t.loopClosed }

/-!  Theorems settling the claims. -/

/-- C1 counterexample: on a completion source whose future is already
completed with 1 after a successful first `SetResult`, a second
`SetResult 2` does NOT fail with a usage error raised to its caller: it
returns normally (`.ok`), merely enqueueing the doomed callback.  Only when
the loop later drains the queue does `future.set_result` raise
`InvalidStateError`, and that goes to the loop's exception handler, not to
the caller of `SetResult`.  The already-set value 1 is indeed unaltered. -/
theorem C1_counterexample :
    SetResult ({ future := .pending, queue := [], loopClosed := false } : TCS Nat) 1 =
      .ok { future := .pending, queue := [.setResult 1], loopClosed := false } ∧
    drain ({ future := .pending, queue := [.setResult 1], loopClosed := false } : TCS Nat) =
      (.completed 1, []) ∧
    SetResult ({ future := .completed 1, queue := [], loopClosed := false } : TCS Nat) 2 =
      .ok { future := .completed 1, queue := [.setResult 2], loopClosed := false } ∧
    drain ({ future := .completed 1, queue := [.setResult 2], loopClosed := false } : TCS Nat) =
      (.completed 1, [.invalidState]) :=
  ⟨rfl, rfl, rfl, rfl⟩

/-- C1 (amended): after a terminal transition has been applied (future no
longer pending), a second terminal-transition call of any kind returns
normally to its caller (no usage error is raised there); the invalid
mutation surfaces as an `InvalidStateError` on the loop's
exception-handler channel when the loop drains the queue — for `SetResult`
and `SetException` — while a second `SetCancelled` is silently ignored.
In every case the already-set terminal value is not altered. -/
theorem C1_amended {α : Type} (t : TCS α) (v : α) (e : Exn)
    (hterm : t.future ≠ FutureState.pending) (hq : t.queue = [])
    (hopen : t.loopClosed = false) :
    SetResult t v = .ok { t with queue := [.setResult v] } ∧
    SetException t e = .ok { t with queue := [.setException e] } ∧
    SetCancelled t = .ok { t with queue := [.cancel] } ∧
    drain { t with queue := [.setResult v] } = (t.future, [.invalidState]) ∧
    drain { t with queue := [.setException e] } = (t.future, [.invalidState]) ∧
    drain { t with queue := [.cancel] } = (t.future, []) := by
  obtain ⟨f, q, c⟩ := t
  dsimp only at hterm hq hopen
  subst hq
  subst hopen
  cases f with
  | pending => exact absurd rfl hterm
  | completed w => exact ⟨rfl, rfl, rfl, rfl, rfl, rfl⟩
  | faulted e0 => exact ⟨rfl, rfl, rfl, rfl, rfl, rfl⟩
  | cancelled => exact ⟨rfl, rfl, rfl, rfl, rfl, rfl⟩

/-- Witness for C1 (amended) at a concrete already-completed source. -/
theorem C1_amended_witness :
    SetResult ({ future := .completed 5, queue := [], loopClosed := false } : TCS Nat) 7 =
      .ok { future := .completed 5, queue := [.setResult 7], loopClosed := false } ∧
    SetException ({ future := .completed 5, queue := [], loopClosed := false } : TCS Nat)
        (.user 3) =
      .ok { future := .completed 5, queue := [.setException (.user 3)], loopClosed := false } ∧
    SetCancelled ({ future := .completed 5, queue := [], loopClosed := false } : TCS Nat) =
      .ok { future := .completed 5, queue := [.cancel], loopClosed := false } ∧
    drain ({ future := .completed 5, queue := [.setResult 7], loopClosed := false } : TCS Nat) =
      (.completed 5, [.invalidState]) ∧
    drain ({ future := .completed 5, queue := [.setException (.user 3)],
             loopClosed := false } : TCS Nat) =
      (.completed 5, [.invalidState]) ∧
    drain ({ future := .completed 5, queue := [.cancel], loopClosed := false } : TCS Nat) =
      (.completed 5, []) :=
  C1_amended { future := .completed 5, queue := [], loopClosed := false } 7 (.user 3)
    (by decide) rfl rfl

/-- C2: `SetResult v`, callable from any thread, does not touch the future
cell directly — it only enqueues through the loop's thread-safe hand-off
and returns; once the owning loop drains the queue on its own turn, the
future is completed with v and an observer awaiting the task observes
exactly v. -/
theorem C2_threadsafe_completion {α : Type} (t : TCS α) (v : α)
    (hp : t.future = .pending) (hq : t.queue = []) (hopen : t.loopClosed = false) :
    SetResult t v = .ok { t with queue := t.queue ++ [.setResult v] } ∧
    ({ t with queue := t.queue ++ [Action.setResult v] } : TCS α).future = t.future ∧
    (afterDrain { t with queue := t.queue ++ [Action.setResult v] }).future = .completed v ∧
    awaitDone (get_task (afterDrain { t with queue := t.queue ++ [Action.setResult v] })) =
      some (.value v) := by
  obtain ⟨f, q, c⟩ := t
  dsimp only at hp hq hopen
  subst hp
  subst hq
  subst hopen
  exact ⟨rfl, rfl, rfl, rfl⟩

/-- Witness for C2 at a concrete pending source and value 42. -/
theorem C2_threadsafe_completion_witness :
    SetResult ({ future := .pending, queue := [], loopClosed := false } : TCS Nat) 42 =
      .ok { future := .pending, queue := [] ++ [.setResult 42], loopClosed := false } ∧
    ({ future := .pending, queue := [] ++ [Action.setResult 42],
       loopClosed := false } : TCS Nat).future = .pending ∧
    (afterDrain ({ future := .pending, queue := [] ++ [Action.setResult 42],
                   loopClosed := false } : TCS Nat)).future = .completed 42 ∧
    awaitDone (get_task (afterDrain
      ({ future := .pending, queue := [] ++ [Action.setResult 42],
         loopClosed := false } : TCS Nat))) =
      some (.value 42) :=
  C2_threadsafe_completion { future := .pending, queue := [], loopClosed := false } 42
    rfl rfl rfl

/-- C3: with no event loop already running in the calling thread,
`get_result (from_result x)` returns exactly x, for every x of every type
(including the empty value / None). -/
theorem C3_roundtrip {α : Type} (x : α) (running : Bool) (h1 h2 : Nat)
    (hr : running = false) :
    get_result running (from_result x h1).1 h2 = .ok x := by
  subst hr
  rfl

/-- Witness for C3 at x = None (the empty value of `Option Nat`). -/
theorem C3_roundtrip_witness :
    get_result false (from_result (none : Option Nat) 0).1 1 = .ok none :=
  C3_roundtrip none false 0 1 rfl

/-- C5: calling `get_result` (or `run_synchronously`) while a loop is
already driving the current thread fails fast: `asyncio.run` raises
RuntimeError to the caller instead of nesting a second loop, for every
awaitable argument. -/
theorem C5_reentrancy_rejected {α : Type} (c : Coroutine α) (running : Bool) (h : Nat)
    (hr : running = true) :
    get_result running c h =
      .error (.runtimeError "asyncio.run() cannot be called from a running event loop") ∧
    run_synchronously running c h =
      .error (.runtimeError "asyncio.run() cannot be called from a running event loop") := by
  subst hr
  exact ⟨rfl, rfl⟩

/-- Witness for C5 at a concrete coroutine inside a running loop. -/
theorem C5_reentrancy_rejected_witness :
    get_result true (from_result (0 : Nat) 0).1 1 =
      .error (.runtimeError "asyncio.run() cannot be called from a running event loop") ∧
    run_synchronously true (from_result (0 : Nat) 0).1 1 =
      .error (.runtimeError "asyncio.run() cannot be called from a running event loop") :=
  C5_reentrancy_rejected (from_result (0 : Nat) 0).1 true 1 rfl

/-- C4: `get_task` called twice hands back handles to the same underlying
completion (`ensure_future` applied to a Future returns that Future, so the
two handles are equal), and awaiting either yields the one outcome
determined by whichever single terminal transition was applied: the value
for `SetResult`, the cancellation signal for `SetCancelled`, and the bound
exception for `SetException`. -/
theorem C4_fanout_consistency {α : Type} (t : TCS α) (v : α) (e : Exn)
    (hp : t.future = .pending) (hq : t.queue = []) (hopen : t.loopClosed = false) :
    (SetResult t v = .ok { t with queue := [.setResult v] } ∧
      get_task (afterDrain { t with queue := [Action.setResult v] }) =
        get_task (afterDrain { t with queue := [Action.setResult v] }) ∧
      awaitDone (get_task (afterDrain { t with queue := [Action.setResult v] })) =
        some (.value v)) ∧
    (SetCancelled t = .ok { t with queue := [.cancel] } ∧
      awaitDone (get_task (afterDrain { t with queue := [Action.cancel] })) =
        some .cancelled) ∧
    (SetException t e = .ok { t with queue := [.setException e] } ∧
      awaitDone (get_task (afterDrain { t with queue := [Action.setException e] })) =
        some (.error e)) := by
  obtain ⟨f, q, c⟩ := t
  dsimp only at hp hq hopen
  subst hp
  subst hq
  subst hopen
  exact ⟨⟨rfl, rfl, rfl⟩, ⟨rfl, rfl⟩, ⟨rfl, rfl⟩⟩

/-- Witness for C4 at a concrete pending source, value 9 and a user
exception. -/
theorem C4_fanout_consistency_witness :
    (SetResult ({ future := .pending, queue := [], loopClosed := false } : TCS Nat) 9 =
        .ok { future := .pending, queue := [.setResult 9], loopClosed := false } ∧
      get_task (afterDrain
        ({ future := .pending, queue := [Action.setResult 9], loopClosed := false } : TCS Nat)) =
        get_task (afterDrain
        ({ future := .pending, queue := [Action.setResult 9], loopClosed := false } : TCS Nat)) ∧
      awaitDone (get_task (afterDrain
        ({ future := .pending, queue := [Action.setResult 9],
           loopClosed := false } : TCS Nat))) = some (.value 9)) ∧
    (SetCancelled ({ future := .pending, queue := [], loopClosed := false } : TCS Nat) =
        .ok { future := .pending, queue := [.cancel], loopClosed := false } ∧
      awaitDone (get_task (afterDrain
        ({ future := .pending, queue := [Action.cancel],
           loopClosed := false } : TCS Nat))) = some .cancelled) ∧
    (SetException ({ future := .pending, queue := [], loopClosed := false } : TCS Nat)
        (.user 1) =
        .ok { future := .pending, queue := [.setException (.user 1)], loopClosed := false } ∧
      awaitDone (get_task (afterDrain
        ({ future := .pending, queue := [Action.setException (.user 1)],
           loopClosed := false } : TCS Nat))) = some (.error (.user 1))) :=
  C4_fanout_consistency { future := .pending, queue := [], loopClosed := false } 9 (.user 1)
    rfl rfl rfl

/-- C6: scheduling a raising awaitable with `start` on a running loop
returns normally to the caller (the raised error is not propagated); when
the loop later drives the task, the loop keeps running and the error is
recorded on the loop's unhandled-failure channel, not swallowed. -/
theorem C6_failure_isolation {α : Type} (l : BgLoop α) (c : Coroutine α) (e : Exn)
    (hr : l.running = true) (ht : l.tasks = []) (hb : c.body = .error e)
    (hc : c.consumed = false) :
    start l c = .ok { l with tasks := [.error e] } ∧
    runNextTask ({ l with tasks := [Outcome.error e] } : BgLoop α) =
      { running := true, tasks := [], unhandled := l.unhandled ++ [e] } ∧
    e ∈ (runNextTask ({ l with tasks := [Outcome.error e] } : BgLoop α)).unhandled := by
  obtain ⟨r, ts, u⟩ := l
  obtain ⟨i, b, cons⟩ := c
  dsimp only at hr ht hb hc
  subst hr
  subst ht
  subst hb
  subst hc
  refine ⟨rfl, rfl, ?_⟩
  exact List.mem_append.mpr (Or.inr (List.mem_singleton_self e))

/-- Witness for C6 on a concrete idle running loop and a coroutine that
raises a user exception. -/
theorem C6_failure_isolation_witness :
    start ({ running := true, tasks := [], unhandled := [] } : BgLoop Nat)
        { id := 0, body := .error (.user 4), consumed := false } =
      .ok { running := true, tasks := [.error (.user 4)], unhandled := [] } ∧
    runNextTask ({ running := true, tasks := [Outcome.error (.user 4)],
                   unhandled := [] } : BgLoop Nat) =
      { running := true, tasks := [], unhandled := [] ++ [.user 4] } ∧
    Exn.user 4 ∈ (runNextTask
      ({ running := true, tasks := [Outcome.error (.user 4)],
         unhandled := [] } : BgLoop Nat)).unhandled :=
  C6_failure_isolation { running := true, tasks := [], unhandled := [] }
    { id := 0, body := .error (.user 4), consumed := false } (.user 4) rfl rfl rfl rfl

/-- C7: after `SetCancelled` is applied and drained, awaiting the handle
from `get_task` delivers the cancellation signal, a constructor of its own,
distinguishable both from every returned value and from every faulted
outcome that `SetException` produces. -/
theorem C7_cancellation_distinguishable {α : Type} (t : TCS α)
    (hp : t.future = .pending) (hq : t.queue = []) (hopen : t.loopClosed = false) :
    SetCancelled t = .ok { t with queue := [.cancel] } ∧
    awaitDone (get_task (afterDrain { t with queue := [Action.cancel] })) =
      some Outcome.cancelled ∧
    (∀ v : α, Outcome.cancelled ≠ Outcome.value v) ∧
    (∀ e : Exn, (Outcome.cancelled : Outcome α) ≠ Outcome.error e) := by
  obtain ⟨f, q, c⟩ := t
  dsimp only at hp hq hopen
  subst hp
  subst hq
  subst hopen
  exact ⟨rfl, rfl, fun v h => Outcome.noConfusion h, fun e h => Outcome.noConfusion h⟩

/-- Witness for C7 at a concrete pending source, comparing the signal with
the value 0 and a user exception. -/
theorem C7_cancellation_distinguishable_witness :
    SetCancelled ({ future := .pending, queue := [], loopClosed := false } : TCS Nat) =
      .ok { future := .pending, queue := [.cancel], loopClosed := false } ∧
    awaitDone (get_task (afterDrain
      ({ future := .pending, queue := [Action.cancel], loopClosed := false } : TCS Nat))) =
      some Outcome.cancelled ∧
    (Outcome.cancelled : Outcome Nat) ≠ Outcome.value 0 ∧
    (Outcome.cancelled : Outcome Nat) ≠ Outcome.error (.user 2) := by
  have H := C7_cancellation_distinguishable
    ({ future := .pending, queue := [], loopClosed := false } : TCS Nat) rfl rfl rfl
  exact ⟨H.1, H.2.1, H.2.2.1 0, H.2.2.2 (.user 2)⟩

/-- C8 counterexample: constructing a `TaskCompletionSource` on the main
thread with no running and no installed loop does NOT fail: within
`asyncio.get_event_loop`, the default policy implicitly creates a fresh
loop (here numbered 7), installs it as the thread's current loop, and
construction succeeds with a pending future bound to it. -/
theorem C8_counterexample :
    TCS_init Nat { runningLoop := none, currentLoop := none, isMainThread := true } 7 =
      .ok ((7, { future := .pending, queue := [], loopClosed := false }),
           { runningLoop := none, currentLoop := some 7, isMainThread := true }) :=
  rfl

/-- C8 (amended): with no running and no installed loop, constructing a
`TaskCompletionSource` propagates a RuntimeError to the caller only on a
non-main thread; on the main thread `asyncio.get_event_loop` implicitly
creates and installs a fresh loop and construction succeeds. -/
theorem C8_amended (α : Type) (ctx : ThreadCtx) (fresh : Nat)
    (h1 : ctx.runningLoop = none) (h2 : ctx.currentLoop = none) :
    (ctx.isMainThread = false →
      TCS_init α ctx fresh =
        .error (.runtimeError "There is no current event loop in thread")) ∧
    (ctx.isMainThread = true →
      TCS_init α ctx fresh =
        .ok ((fresh, { future := .pending, queue := [], loopClosed := false }),
             { ctx with currentLoop := some fresh })) := by
  obtain ⟨r, cl, m⟩ := ctx
  dsimp only at h1 h2
  subst h1
  subst h2
  cases m with
  | false => exact ⟨fun _ => rfl, fun hm => Bool.noConfusion hm⟩
  | true => exact ⟨fun hm => Bool.noConfusion hm, fun _ => rfl⟩

/-- Witness for C8 (amended): on a concrete non-main thread with no loop,
construction raises RuntimeError. -/
theorem C8_amended_witness :
    TCS_init Nat { runningLoop := none, currentLoop := none, isMainThread := false } 0 =
      .error (.runtimeError "There is no current event loop in thread") :=
  (C8_amended Nat { runningLoop := none, currentLoop := none, isMainThread := false } 0
    rfl rfl).1 rfl

/-- C9: on an open loop, each of the three terminal-transition methods
returns None to its caller immediately, leaves the future cell exactly as
it was, and only appends its callback to the loop's thread-safe queue; the
future therefore stays in its previous state until the loop itself drains
the queue. -/
theorem C9_enqueue_only {α : Type} (t : TCS α) (v : α) (e : Exn)
    (hopen : t.loopClosed = false) :
    SetResult t v = .ok { t with queue := t.queue ++ [.setResult v] } ∧
    SetCancelled t = .ok { t with queue := t.queue ++ [.cancel] } ∧
    SetException t e = .ok { t with queue := t.queue ++ [.setException e] } ∧
    ({ t with queue := t.queue ++ [Action.setResult v] } : TCS α).future = t.future ∧
    ({ t with queue := t.queue ++ [Action.cancel] } : TCS α).future = t.future ∧
    ({ t with queue := t.queue ++ [Action.setException e] } : TCS α).future = t.future := by
  obtain ⟨f, q, c⟩ := t
  dsimp only at hopen
  subst hopen
  exact ⟨rfl, rfl, rfl, rfl, rfl, rfl⟩

/-- Witness for C9 at a concrete pending source. -/
theorem C9_enqueue_only_witness :
    SetResult ({ future := .pending, queue := [], loopClosed := false } : TCS Nat) 3 =
      .ok { future := .pending, queue := [] ++ [.setResult 3], loopClosed := false } ∧
    SetCancelled ({ future := .pending, queue := [], loopClosed := false } : TCS Nat) =
      .ok { future := .pending, queue := [] ++ [.cancel], loopClosed := false } ∧
    SetException ({ future := .pending, queue := [], loopClosed := false } : TCS Nat)
        (.user 6) =
      .ok { future := .pending, queue := [] ++ [.setException (.user 6)],
            loopClosed := false } ∧
    ({ future := .pending, queue := [] ++ [Action.setResult 3],
       loopClosed := false } : TCS Nat).future = .pending ∧
    ({ future := .pending, queue := [] ++ [Action.cancel],
       loopClosed := false } : TCS Nat).future = .pending ∧
    ({ future := .pending, queue := [] ++ [Action.setException (.user 6)],
       loopClosed := false } : TCS Nat).future = .pending :=
  C9_enqueue_only { future := .pending, queue := [], loopClosed := false } 3 (.user 6) rfl

/-- C10: each call to `zero`, `from_result` or `get_awaiter` allocates a
fresh single-use coroutine object — it carries the current allocation
identity, advances the counter, and starts unconsumed, so two successive
calls return distinct objects — and awaiting such an object a second time
raises RuntimeError instead of yielding the value again. -/
theorem C10_fresh_single_use {α : Type} (v : α) (a : Outcome α) (h : Nat)
    (c : Coroutine α) (hc : c.consumed = false) :
    (from_result v h).1.id = h ∧ (from_result v h).1.consumed = false ∧
      (from_result v h).2 = h + 1 ∧
    (zero h).1.id = h ∧ (zero h).1.consumed = false ∧ (zero h).2 = h + 1 ∧
    (get_awaiter a h).1.id = h ∧ (get_awaiter a h).1.consumed = false ∧
      (get_awaiter a h).2 = h + 1 ∧
    (from_result v h).1.id ≠ (from_result v ((from_result v h).2)).1.id ∧
    (awaitCoroutine c).1 = c.body ∧
    (awaitCoroutine (awaitCoroutine c).2).1 =
      .error (.runtimeError "cannot reuse already awaited coroutine") := by
  obtain ⟨i, b, cons⟩ := c
  dsimp only at hc
  subst hc
  exact ⟨rfl, rfl, rfl, rfl, rfl, rfl, rfl, rfl, rfl,
    Nat.ne_of_lt (Nat.lt_succ_self h), rfl, rfl⟩

/-- Witness for C10 at a concrete value, outcome, heap position and fresh
coroutine. -/
theorem C10_fresh_single_use_witness :
    (from_result (5 : Nat) 0).1.id = 0 ∧ (from_result (5 : Nat) 0).1.consumed = false ∧
      (from_result (5 : Nat) 0).2 = 0 + 1 ∧
    (zero 0).1.id = 0 ∧ (zero 0).1.consumed = false ∧ (zero 0).2 = 0 + 1 ∧
    (get_awaiter (Outcome.value (5 : Nat)) 0).1.id = 0 ∧
      (get_awaiter (Outcome.value (5 : Nat)) 0).1.consumed = false ∧
      (get_awaiter (Outcome.value (5 : Nat)) 0).2 = 0 + 1 ∧
    (from_result (5 : Nat) 0).1.id ≠
      (from_result (5 : Nat) ((from_result (5 : Nat) 0).2)).1.id ∧
    (awaitCoroutine ({ id := 0, body := .value 5, consumed := false } : Coroutine Nat)).1 =
      Coroutine.body { id := 0, body := .value 5, consumed := false } ∧
    (awaitCoroutine (awaitCoroutine
        ({ id := 0, body := .value 5, consumed := false } : Coroutine Nat)).2).1 =
      .error (.runtimeError "cannot reuse already awaited coroutine") :=
  C10_fresh_single_use 5 (Outcome.value 5) 0
    { id := 0, body := .value 5, consumed := false } rfl

end FableTask
